import Mathlib

/-!
Verification development for the HDTV matrix-switch control layer.

The definitions below are a shallow embedding of the Python sources:
`api.py` (transport, state model, matrix client operations) and
`coordinator.py` (state poller and its read accessors).  Network effects
are modelled by passing the device's responses in explicitly (HTTP status
codes, parse outcomes) and by returning the sequence of requests a client
operation issues as an explicit event list.
-/

-- ===========================================================================
-- Data model (api.py: MatrixOutput, MatrixState, constants)
-- ===========================================================================

/-- Sentinel raw value meaning "output disconnected" (api.py line 45). -/
def DISCONNECTED_VALUE : Nat := 65535

/-- State of one matrix output (api.py `MatrixOutput`): `input_number = none`
means disconnected. -/
structure MatrixOutput where
  output_number : Nat
  input_number : Option Nat
  raw_value : Nat
deriving DecidableEq, Repr

/-- Whole-matrix state (api.py `MatrixState`): an insertion-ordered mapping
output number to `MatrixOutput`, modelled as an association list.  The
wall-clock timestamp field is not modelled. -/
structure MatrixState where
  outputs : List (Nat × MatrixOutput)
deriving DecidableEq, Repr

/-- Number of outputs in the matrix (api.py `MatrixState.total_outputs`). -/
def MatrixState.total_outputs (s : MatrixState) : Nat := s.outputs.length

/-- Lookup of one output's state (api.py `MatrixState.get_output`, a dict
`.get`). -/
def MatrixState.get_output (s : MatrixState) (output_number : Nat) :
    Option MatrixOutput :=
  s.outputs.lookup output_number

/-- Body of the loop in `StateParser.parse_status_array`: the entry built for
raw value `raw` at 1-indexed output `output_num` (api.py lines 243-253). -/
def mkMatrixOutput (output_num raw : Nat) : MatrixOutput :=
  { output_number := output_num
    input_number := if raw = DISCONNECTED_VALUE then none else some (raw + 1)
    raw_value := raw }

/-- The `for output_idx, raw_value in enumerate(status_array)` loop of
`StateParser.parse_status_array`, with `idx` the current 0-based index. -/
def parseLoop : Nat → List Nat → List (Nat × MatrixOutput)
  | _, [] => []
  | idx, raw :: rest => (idx + 1, mkMatrixOutput (idx + 1) raw) :: parseLoop (idx + 1) rest

/-- api.py `StateParser.parse_status_array`: raw status array to
`MatrixState`. -/
def parse_status_array (status_array : List Nat) : MatrixState :=
  ⟨parseLoop 0 status_array⟩

-- ===========================================================================
-- Error taxonomy (api.py exception classes)
-- ===========================================================================

/-- Typed errors of the client (api.py `ConnectionError`,
`InvalidResponseError`, `CommandError`), each carrying its message. -/
inductive ApiError where
  | connectionError (msg : String)
  | invalidResponseError (msg : String)
  | commandError (msg : String)
deriving DecidableEq, Repr

-- ===========================================================================
-- Transport (api.py `HDTVMatrixApi._execute_request`)
-- ===========================================================================

/-- Response body as stored on the `HTTPResponse`: either the parsed JSON
document (kept abstract as its rendering) or the raw text when JSON parsing
failed (api.py lines 413-421). -/
inductive Body where
  | jsonBody (v : String)
  | textBody (s : String)
deriving DecidableEq, Repr

/-- api.py `HTTPResponse` (request metadata and timing not modelled). -/
structure HTTPResponse where
  status_code : Nat
  data : Body
  success : Bool
  error_message : Option String
deriving DecidableEq, Repr

/-- Result of `_execute_request`: either a normal return of an
`HTTPResponse`, or a raised typed error. -/
inductive RequestOutcome where
  | ret (r : HTTPResponse)
  | raised (e : ApiError)
deriving DecidableEq, Repr

/-- Whether the outcome is a raised error. -/
def RequestOutcome.isRaised : RequestOutcome → Bool
  | RequestOutcome.ret _ => false
  | RequestOutcome.raised _ => true

/-- api.py `_execute_request` response handling (lines 404-439): the device
answered with HTTP status `status`; `parsed = some v` when the body parsed
as JSON `v`, `none` when it did not (then `raw_text` is the body text and
`json_err` the parse-failure description).  Network-level exceptions
(timeout, client error) are outside this model. -/
def execute_request (status : Nat) (parsed : Option String)
    (raw_text : String) (json_err : String) : RequestOutcome :=
  let data : Body :=
    match parsed with
    | some v => Body.jsonBody v
    | none => Body.textBody raw_text
  let success : Bool :=
    match parsed with
    | some _ => status = 200
    | none => false
  let error_msg : Option String :=
    match parsed with
    | some _ => if status = 200 then none else some ("HTTP " ++ toString status)
    | none => some ("JSON parse error: " ++ json_err)
  let response : HTTPResponse :=
    { status_code := status, data := data, success := success, error_message := error_msg }
  if success then RequestOutcome.ret response
  else if 500 ≤ status then
    RequestOutcome.raised (ApiError.connectionError ("Server error: " ++ error_msg.getD ""))
  else if 400 ≤ status then
    RequestOutcome.raised (ApiError.invalidResponseError ("Client error: " ++ error_msg.getD ""))
  else RequestOutcome.ret response

-- ===========================================================================
-- Matrix client: set_route (api.py lines 504-545)
-- ===========================================================================

/-- The command request `set_route` issues: endpoint `get_json_cmd.php`,
query parameters `cmd` and `prm`. -/
structure CommandRequest where
  endpoint : String
  cmd : String
  prm : String
deriving DecidableEq, Repr

/-- api.py `set_route` request construction (lines 519-526): both 1-indexed
ports are converted to 0-indexed and formatted into `prm`.  Ports are Python
ints, modelled as `Int`. -/
def set_route_request (input_port output_port : Int) : CommandRequest :=
  { endpoint := "get_json_cmd.php"
    cmd := "o2ox"
    prm := toString (input_port - 1) ++ "," ++ toString (output_port - 1) }

-- ===========================================================================
-- Matrix client: set_all_to_input (api.py lines 743-767)
-- ===========================================================================

/-- The per-output failure entry appended to `errors` in `set_all_to_input`
(api.py line 761). -/
def set_route_error_entry (n : Nat) (msg : String) : String :=
  "num_outputs " ++ toString n ++ ": " ++ msg

/-- Python `str.join` with separator `sep` (used as `"; ".join(errors)`). -/
def joinSep (sep : String) : List String → String
  | [] => ""
  | [a] => a
  | a :: b :: rest => a ++ sep ++ joinSep sep (b :: rest)

/-- api.py `set_all_to_input`: `routeResult n = none` models `set_route`
succeeding for output `n`, `some msg` models it raising an exception with
message `msg`.  Returns the list of outputs for which `set_route` was
invoked, and the raised `CommandError` (if any per-output failure
occurred). -/
def set_all_to_input (routeResult : Nat → Option String) (num_outputs : Nat) :
    List Nat × Option ApiError :=
  let attempted := List.range' 1 num_outputs
  let errors := attempted.filterMap fun n => (routeResult n).map (set_route_error_entry n)
  (attempted,
   if errors = [] then none
   else some (ApiError.commandError ("Failed to set all num_outputs: " ++ joinSep "; " errors)))

-- ===========================================================================
-- Matrix client: the videowall splice preset (api.py `set_splice_and_video`,
-- lines 547-710)
-- ===========================================================================

/-- A JSON primitive: the values carried by the `x` and `y` fields of a
splice payload object are either JSON strings or JSON numbers. -/
inductive JPrim where
  | str (s : String)
  | num (n : Int)
deriving DecidableEq, Repr

/-- One object of a splice payload array: `{x: ..., y: ..., data: [...]}`. -/
structure SpliceObj where
  x : JPrim
  y : JPrim
  data : List String
deriving DecidableEq, Repr

/-- One predefined case of the videowall preset (api.py lines 563-580). -/
structure SpliceCase where
  prm : String
  spliceData : List String
deriving DecidableEq, Repr

/-- The four predefined cases, in source order (api.py lines 563-580). -/
def splice_cases : List SpliceCase :=
  [ { prm := "1,1,1,2,2,1,", spliceData := ["1", "-1", "-1", "-1"] }
  , { prm := "2,1,2,2,2,1,", spliceData := ["1", "2", "-1", "-1"] }
  , { prm := "3,1,3,2,2,1,", spliceData := ["1", "2", "3", "-1"] }
  , { prm := "4,1,4,2,2,1,", spliceData := ["1", "2", "3", "4"] } ]

/-- The splice-data payload built for a case (api.py lines 666-672): note
`x` and `y` are the JSON strings `"2"`, not numbers. -/
def case_payload (c : SpliceCase) : List SpliceObj :=
  [ { x := JPrim.str "2", y := JPrim.str "2", data := c.spliceData } ]

/-- Network calls and the change notification observable during
`set_splice_and_video`: the command request (`cmd=splice` with the case's
`prm`, to `get_json_cmd.php`), the splice-data request (payload to
`get_json_splice.php`), and the final change-callback notification. -/
inductive Event where
  | cmdRequest (caseIdx : Nat) (cmd : String) (prm : String)
  | spliceRequest (caseIdx : Nat) (payload : List SpliceObj)
  | notifyChange
deriving DecidableEq, Repr

/-- The loop of `set_splice_and_video` over the enumerated cases.
`cmdStatus i` / `dataStatus i` are the HTTP statuses the device returns to
case `i`'s command and splice-data requests.  A non-200 command response
raises `CommandError "Splice CMD failed (case i): HTTP s"` (lines 625-627);
a non-200 splice-data response raises a `CommandError` wrapping the inner
failure (lines 691-701; the response body text is omitted from the modelled
message).  After all cases succeed the change notification fires once
(line 708). -/
def run_splice_cases (cmdStatus dataStatus : Nat → Nat) :
    List (Nat × SpliceCase) → List Event × Option ApiError
  | [] => ([Event.notifyChange], none)
  | (idx, c) :: rest =>
    if cmdStatus idx = 200 then
      if dataStatus idx = 200 then
        let r := run_splice_cases cmdStatus dataStatus rest
        (Event.cmdRequest idx "splice" c.prm ::
           Event.spliceRequest idx (case_payload c) :: r.1, r.2)
      else
        ([Event.cmdRequest idx "splice" c.prm, Event.spliceRequest idx (case_payload c)],
         some (ApiError.commandError
           ("Error configurando videowall DATA (case " ++ toString idx ++
             "): Videowall splice DATA failed (case " ++ toString idx ++
             "): HTTP " ++ toString (dataStatus idx))))
    else
      ([Event.cmdRequest idx "splice" c.prm],
       some (ApiError.commandError
         ("Splice CMD failed (case " ++ toString idx ++ "): HTTP " ++
           toString (cmdStatus idx))))

/-- api.py `set_splice_and_video`: runs the four cases in order, enumerated
from 1 (line 585: `enumerate(cases, start=1)`). -/
def set_splice_and_video (cmdStatus dataStatus : Nat → Nat) :
    List Event × Option ApiError :=
  run_splice_cases cmdStatus dataStatus
    ((List.range' 1 splice_cases.length).zip splice_cases)

-- ===========================================================================
-- Splice payload builder (api.py `SplicePayloadBuilder.build_payload`,
-- lines 261-299)
-- ===========================================================================

/-- The payload object literal of `build_payload` (api.py lines 289-293):
`[{"x": 2, "y": 2, "data": data}]` — the source hardcodes the JSON numbers
2 and 2 for `x` and `y`. -/
def build_payload_obj (data : List String) : List SpliceObj :=
  [ { x := JPrim.num 2, y := JPrim.num 2, data := data } ]

/-- api.py `SplicePayloadBuilder.build_payload` up to serialization: `none`
data defaults to `(num_inputs * num_outputs)` copies of `"-1"`; a data list
of the wrong length raises `ValueError` before anything else happens.  The
JSON-compact serialization and URL-encoding of the result are not modelled;
the payload is returned as its structured value. -/
def build_payload (num_inputs num_outputs : Nat) (data : Option (List String)) :
    Except String (List SpliceObj) :=
  match data with
  | none => Except.ok (build_payload_obj (List.replicate (num_inputs * num_outputs) "-1"))
  | some d =>
    if d.length = num_inputs * num_outputs then Except.ok (build_payload_obj d)
    else Except.error
      ("Data length must be " ++ toString (num_inputs * num_outputs) ++
        " (num_inputs * num_outputs), got " ++ toString d.length)

-- ===========================================================================
-- Matrix client: test_connection (api.py lines 791-804)
-- ===========================================================================

/-- Result dictionary of `get_status` as cached by the poller: the
`matrix` mapping of `MatrixState.to_dict` (string keys `output_N`) plus
`total_outputs` (the timestamp field is not modelled). -/
structure OutputDict where
  input : Option Nat
  raw_value : Nat
deriving DecidableEq, Repr

/-- api.py `MatrixState.to_dict` output (lines 91-104). -/
structure StatusDict where
  matrix : List (String × OutputDict)
  total_outputs : Nat
deriving DecidableEq, Repr

/-- api.py `MatrixState.to_dict`. -/
def MatrixState.to_dict (s : MatrixState) : StatusDict :=
  { matrix := s.outputs.map fun p =>
      ("output_" ++ toString p.1, { input := p.2.input_number, raw_value := p.2.raw_value })
    total_outputs := s.total_outputs }

/-- api.py `test_connection`: attempts `get_status` (whose outcome is passed
in) and wraps it in try/except.  The `Except ApiError Bool` return type
records whether `test_connection` itself raises: it never does, so the
result is always `Except.ok`. -/
def test_connection (get_status_outcome : Except ApiError StatusDict) :
    Except ApiError Bool :=
  match get_status_outcome with
  | Except.ok _ => Except.ok true
  | Except.error _ => Except.ok false

/-- Whether an outcome of `get_status` is a success. -/
def statusIsOk : Except ApiError StatusDict → Bool
  | Except.ok _ => true
  | Except.error _ => false

-- ===========================================================================
-- Poller (coordinator.py `HDTVCoordinator`)
-- ===========================================================================

/-- State owned by the poller: the cached snapshot (`self.data`), the
last-refresh-success flag, and the consecutive-failure counter. -/
structure PollerState where
  data : Option StatusDict
  last_update_success : Bool
  consecutive_failures : Nat
deriving DecidableEq, Repr

/-- Initial poller state: no snapshot yet, counter 0. -/
def initial_poller_state : PollerState :=
  { data := none, last_update_success := true, consecutive_failures := 0 }

/-- One refresh of the poller.  The failure-counter updates follow
coordinator.py `_async_update_data` (lines 70-108): success resets the
counter to 0 and returns the fresh data, every failure class increments the
counter and raises `UpdateFailed`.  Modelled from the spec: the host refresh
mechanism that consumes that raise (Home Assistant's update coordinator, not
part of this repository) retains the cached snapshot and clears the success
flag on failure, and stores the returned snapshot and sets the flag on
success (spec section 4.4). -/
def refresh_step (st : PollerState) (outcome : Except ApiError StatusDict) :
    PollerState :=
  match outcome with
  | Except.ok d =>
    { data := some d, last_update_success := true, consecutive_failures := 0 }
  | Except.error _ =>
    { data := st.data, last_update_success := false,
      consecutive_failures := st.consecutive_failures + 1 }

/-- Runs the poller over a trace of refresh outcomes, in order. -/
def run_poller : PollerState → List (Except ApiError StatusDict) → PollerState
  | st, [] => st
  | st, o :: rest => run_poller (refresh_step st o) rest

/-- The data of the last successful refresh of a trace, if any. -/
def last_success : List (Except ApiError StatusDict) → Option StatusDict
  | [] => none
  | Except.ok d :: rest =>
    match last_success rest with
    | some d2 => some d2
    | none => some d
  | Except.error _ :: rest => last_success rest

/-- coordinator.py `is_connected` (lines 135-138): last refresh succeeded
and a snapshot exists. -/
def is_connected (st : PollerState) : Bool :=
  st.last_update_success && st.data.isSome

/-- coordinator.py `get_output_state` (lines 145-161): `none` models the
empty mapping returned both when no snapshot exists and when the key
`output_N` is absent from the snapshot. -/
def get_output_state (st : PollerState) (output_number : Nat) : Option OutputDict :=
  match st.data with
  | none => none
  | some d => d.matrix.lookup ("output_" ++ toString output_number)

/-- coordinator.py `get_all_outputs` (lines 163-173): the snapshot's
`matrix` mapping, or the empty mapping when no snapshot exists. -/
def get_all_outputs (st : PollerState) : List (String × OutputDict) :=
  match st.data with
  | none => []
  | some d => d.matrix

/-- Insertion into a sorted list (ascending). -/
def insertSorted (n : Nat) : List Nat → List Nat
  | [] => [n]
  | m :: rest => if n ≤ m then n :: m :: rest else m :: insertSorted n rest

/-- Python `sorted` on a list of naturals, as insertion sort. -/
def sortNat : List Nat → List Nat
  | [] => []
  | n :: rest => insertSorted n (sortNat rest)

/-- coordinator.py `get_connected_outputs` (lines 175-194): collects the
output numbers whose entry has a non-null input (recovering the number from
the `output_N` key as `int(key.split("_")[1])` does), sorted ascending. -/
def get_connected_outputs (st : PollerState) : List Nat :=
  match st.data with
  | none => []
  | some d =>
    sortNat (d.matrix.filterMap fun kv =>
      match kv.2.input with
      | some _ => some (((kv.1.splitOn "_").getD 1 "").toNat?.getD 0)
      | none => none)

-- ===========================================================================
-- Helper lemmas
-- ===========================================================================

theorem lookup_cons_self {β : Type} (a : Nat) (v : β) (t : List (Nat × β)) :
    List.lookup a ((a, v) :: t) = some v := by
  simp [List.lookup]

theorem lookup_cons_ne {β : Type} (a : Nat) (v : β) (t : List (Nat × β))
    (k : Nat) (h : k ≠ a) : List.lookup k ((a, v) :: t) = List.lookup k t := by
  have hb : (k == a) = false := by simpa using h
  simp [List.lookup, hb]

theorem parseLoop_length (A : List Nat) : ∀ i, (parseLoop i A).length = A.length := by
  induction A with
  | nil => intro i; rfl
  | cons raw rest ih => intro i; simp [parseLoop, ih]

theorem parseLoop_keys (A : List Nat) :
    ∀ i, (parseLoop i A).map Prod.fst = List.range' (i + 1) A.length := by
  induction A with
  | nil => intro i; rfl
  | cons raw rest ih =>
    intro i
    simp [parseLoop, List.range', ih]

theorem parseLoop_lookup (A : List Nat) :
    ∀ i k, i + 1 ≤ k → k ≤ i + A.length →
      List.lookup k (parseLoop i A) = some (mkMatrixOutput k (A.getD (k - i - 1) 0)) := by
  induction A with
  | nil =>
    intro i k h1 h2
    simp at h2
    omega
  | cons raw rest ih =>
    intro i k h1 h2
    by_cases hk : k = i + 1
    · subst hk
      rw [parseLoop, lookup_cons_self]
      simp [List.getD]
    · rw [parseLoop, lookup_cons_ne _ _ _ _ hk]
      have h1' : (i + 1) + 1 ≤ k := by omega
      have h2' : k ≤ (i + 1) + rest.length := by
        simp at h2
        omega
      rw [ih (i + 1) k h1' h2']
      have hidx : k - i - 1 = (k - (i + 1) - 1) + 1 := by omega
      rw [hidx]
      simp [List.getD]

theorem joinSep_mem_split (sep : String) (s : String) :
    ∀ l : List String, s ∈ l → ∃ p q, joinSep sep l = p ++ s ++ q := by
  intro l
  induction l with
  | nil => intro h; cases h
  | cons a rest ih =>
    intro h
    rcases List.mem_cons.mp h with h | h
    · subst h
      cases rest with
      | nil => exact ⟨"", "", by simp [joinSep]⟩
      | cons b t =>
        refine ⟨"", sep ++ joinSep sep (b :: t), ?_⟩
        rw [joinSep]
        simp [String.append_assoc]
    · rcases ih h with ⟨p, q, hp⟩
      cases rest with
      | nil => cases h
      | cons b t =>
        refine ⟨a ++ sep ++ p, q, ?_⟩
        rw [joinSep, hp]
        rw [String.append_assoc (a ++ sep) p s, String.append_assoc (a ++ sep) (p ++ s) q,
          String.append_assoc p s q]

-- ===========================================================================
-- Claim theorems
-- ===========================================================================

/-- C1: for every raw status array `A`, `parse_status_array A` yields exactly
one entry per output number `1..A.length` in order (no gaps),
`total_outputs = A.length`, and for every 1-indexed `k ≤ A.length` the entry
for output `k` has `raw_value = A[k-1]` and `input_number = none` iff
`A[k-1] = 65535`, else `A[k-1] + 1`. -/
theorem C1_parse_status_array (A : List Nat) :
    (parse_status_array A).outputs.map Prod.fst = List.range' 1 A.length ∧
    (parse_status_array A).total_outputs = A.length ∧
    ∀ k, 1 ≤ k → k ≤ A.length →
      (parse_status_array A).get_output k =
        some { output_number := k
               input_number :=
                 if A.getD (k - 1) 0 = 65535 then none else some (A.getD (k - 1) 0 + 1)
               raw_value := A.getD (k - 1) 0 } := by
  refine ⟨?_, ?_, ?_⟩
  · simpa using parseLoop_keys A 0
  · simpa [MatrixState.total_outputs, parse_status_array] using parseLoop_length A 0
  · intro k h1 h2
    have h := parseLoop_lookup A 0 k (by omega) (by omega)
    simpa [MatrixState.get_output, parse_status_array, mkMatrixOutput,
      DISCONNECTED_VALUE] using h

/-- C1 witness: the documented scenario, array `[0, 65535, 2]`, output 2 is
disconnected with raw value 65535. -/
theorem C1_witness :
    (parse_status_array [0, 65535, 2]).get_output 2 = some ⟨2, none, 65535⟩ := by
  have h := (C1_parse_status_array [0, 65535, 2]).2.2 2 (by decide) (by decide)
  rw [h]
  decide

/-- C8: for every pair of ports, `set_route` issues the `o2ox` command with
both ports converted to 0-indexed in `prm`; in particular `set_route 3 5`
sends `cmd = "o2ox"`, `prm = "2,4"`. -/
theorem C8_set_route :
    (∀ i o : Int, set_route_request i o =
      { endpoint := "get_json_cmd.php", cmd := "o2ox",
        prm := toString (i - 1) ++ "," ++ toString (o - 1) }) ∧
    set_route_request 3 5 = { endpoint := "get_json_cmd.php", cmd := "o2ox", prm := "2,4" } := by
  exact ⟨fun i o => rfl, by decide⟩

/-- C9: `test_connection` never raises: for every outcome of the underlying
status request it returns a boolean, true exactly when `get_status`
succeeded and false on any failure. -/
theorem C9_test_connection (outcome : Except ApiError StatusDict) :
    ∃ b : Bool, test_connection outcome = Except.ok b ∧ b = statusIsOk outcome := by
  cases outcome with
  | ok d => exact ⟨true, rfl, rfl⟩
  | error e => exact ⟨false, rfl, rfl⟩

/-- C4 (code bug): `build_payload` validates the data length and fails with
a `ValueError` before anything else when it mismatches, but then hardcodes
the JSON numbers `x = 2, y = 2` into the payload instead of using
`num_inputs` and `num_outputs`, contradicting its own docstring; evaluated
here at `num_inputs = 3, num_outputs = 2` with a correctly sized data list
of 6 elements. -/
theorem C4_build_payload_hardcoded :
    build_payload 3 2 (some ["0", "1", "2", "3", "4", "5"]) =
      Except.ok [{ x := JPrim.num 2, y := JPrim.num 2,
                   data := ["0", "1", "2", "3", "4", "5"] }] ∧
    build_payload 3 2 (some ["0", "1", "2", "3", "4", "5"]) ≠
      Except.ok [{ x := JPrim.num 3, y := JPrim.num 2,
                   data := ["0", "1", "2", "3", "4", "5"] }] ∧
    build_payload 3 2 (some ["0", "1"]) =
      Except.error "Data length must be 6 (num_inputs * num_outputs), got 2" := by
  refine ⟨rfl, ?_, rfl⟩
  intro h
  exact absurd (Except.ok.inj h) (by decide)

/-- C5 counterexample: a transport request answered with HTTP 200 and a body
that is not parseable as JSON does not raise any typed error — the response
is returned to the caller, refuting that the failure is surfaced as a typed
invalid-response error. -/
theorem C5_counterexample :
    (execute_request 200 none "not json" "Expecting value").isRaised = false ∧
    execute_request 200 none "not json" "Expecting value" =
      RequestOutcome.ret
        { status_code := 200, data := Body.textBody "not json", success := false,
          error_message := some "JSON parse error: Expecting value" } := by
  exact ⟨rfl, rfl⟩

/-- C5 (amended): for every transport request returning HTTP 200 with a body
that is not parseable as JSON, the returned response is marked as a failure
(`success = false`) with a JSON-parse error message and carries the raw
text, but it is returned normally — no typed invalid-response error is
raised. -/
theorem C5_json_failure_returned (raw_text json_err : String) :
    execute_request 200 none raw_text json_err =
      RequestOutcome.ret
        { status_code := 200, data := Body.textBody raw_text, success := false,
          error_message := some ("JSON parse error: " ++ json_err) } ∧
    (execute_request 200 none raw_text json_err).isRaised = false := by
  exact ⟨rfl, rfl⟩

/-- C6: `set_all_to_input` invokes `set_route` for every output `1..N`
regardless of earlier failures; when no output fails it raises nothing, and
for every failed output the raised `CommandError`'s message contains that
output's failure entry. -/
theorem C6_set_all_to_input (routeResult : Nat → Option String) (N : Nat) :
    (set_all_to_input routeResult N).1 = List.range' 1 N ∧
    ((∀ n, n ∈ List.range' 1 N → routeResult n = none) →
      (set_all_to_input routeResult N).2 = none) ∧
    (∀ n e, n ∈ List.range' 1 N → routeResult n = some e →
      ∃ msg, (set_all_to_input routeResult N).2 = some (ApiError.commandError msg) ∧
        ∃ p q, msg = p ++ set_route_error_entry n e ++ q) := by
  refine ⟨rfl, ?_, ?_⟩
  · intro h
    have he : (List.range' 1 N).filterMap
        (fun n => (routeResult n).map (set_route_error_entry n)) = [] := by
      rw [List.filterMap_eq_nil_iff]
      intro n hn
      rw [h n hn]
      rfl
    simp [set_all_to_input, he]
  · intro n e hn he
    have hmem : set_route_error_entry n e ∈ (List.range' 1 N).filterMap
        (fun n => (routeResult n).map (set_route_error_entry n)) := by
      rw [List.mem_filterMap]
      exact ⟨n, hn, by rw [he]; rfl⟩
    have hne : (List.range' 1 N).filterMap
        (fun n => (routeResult n).map (set_route_error_entry n)) ≠ [] :=
      List.ne_nil_of_mem hmem
    rcases joinSep_mem_split "; " (set_route_error_entry n e) _ hmem with ⟨p, q, hpq⟩
    refine ⟨"Failed to set all num_outputs: " ++ joinSep "; "
      ((List.range' 1 N).filterMap fun n => (routeResult n).map (set_route_error_entry n)),
      ?_, "Failed to set all num_outputs: " ++ p, q, ?_⟩
    · simp [set_all_to_input, hne]
    · rw [hpq]
      rw [String.append_assoc, String.append_assoc, String.append_assoc]

/-- C6 witness: three outputs, output 2 fails with message "boom"; the
raised error's message contains output 2's failure entry. -/
theorem C6_witness :
    ∃ msg, (set_all_to_input (fun n => if n = 2 then some "boom" else none) 3).2 =
        some (ApiError.commandError msg) ∧
      ∃ p q, msg = p ++ set_route_error_entry 2 "boom" ++ q := by
  exact (C6_set_all_to_input (fun n => if n = 2 then some "boom" else none) 3).2.2
    2 "boom" (by decide) (by decide)

theorem splice_enum_eq :
    (List.range' 1 splice_cases.length).zip splice_cases =
      [(1, { prm := "1,1,1,2,2,1,", spliceData := ["1", "-1", "-1", "-1"] }),
       (2, { prm := "2,1,2,2,2,1,", spliceData := ["1", "2", "-1", "-1"] }),
       (3, { prm := "3,1,3,2,2,1,", spliceData := ["1", "2", "3", "-1"] }),
       (4, { prm := "4,1,4,2,2,1,", spliceData := ["1", "2", "3", "4"] })] := rfl

/-- C2 counterexample: with every device response 200, the second network
call of the preset is the case-1 splice-data request, and its payload is not
the array `[{x: 2, y: 2, data: ["1","-1","-1","-1"]}]` with `x` and `y`
JSON numbers — the source sends them as JSON strings. -/
theorem C2_counterexample :
    (set_splice_and_video (fun _ => 200) (fun _ => 200)).1.getD 1 Event.notifyChange ≠
      Event.spliceRequest 1
        [{ x := JPrim.num 2, y := JPrim.num 2, data := ["1", "-1", "-1", "-1"] }] ∧
    (set_splice_and_video (fun _ => 200) (fun _ => 200)).1.getD 1 Event.notifyChange =
      Event.spliceRequest 1
        [{ x := JPrim.str "2", y := JPrim.str "2", data := ["1", "-1", "-1", "-1"] }] := by
  exact ⟨by decide, by decide⟩

/-- C2 (amended): when every response is HTTP 200,
`set_splice_and_video` issues exactly 8 network calls (4 command + 4
splice-data) in the literal fixed order, each command carrying `cmd=splice`
with the case's literal `prm` string, and each splice-data payload being a
JSON array with exactly one object whose `x` and `y` are the JSON strings
`"2"` (not numbers) and whose `data` is the case's literal string list;
then the change notification fires. -/
theorem C2_splice_preset_sequence (cmdStatus dataStatus : Nat → Nat)
    (h : ∀ i, 1 ≤ i → i ≤ 4 → cmdStatus i = 200 ∧ dataStatus i = 200) :
    set_splice_and_video cmdStatus dataStatus =
      ([Event.cmdRequest 1 "splice" "1,1,1,2,2,1,",
        Event.spliceRequest 1
          [{ x := JPrim.str "2", y := JPrim.str "2", data := ["1", "-1", "-1", "-1"] }],
        Event.cmdRequest 2 "splice" "2,1,2,2,2,1,",
        Event.spliceRequest 2
          [{ x := JPrim.str "2", y := JPrim.str "2", data := ["1", "2", "-1", "-1"] }],
        Event.cmdRequest 3 "splice" "3,1,3,2,2,1,",
        Event.spliceRequest 3
          [{ x := JPrim.str "2", y := JPrim.str "2", data := ["1", "2", "3", "-1"] }],
        Event.cmdRequest 4 "splice" "4,1,4,2,2,1,",
        Event.spliceRequest 4
          [{ x := JPrim.str "2", y := JPrim.str "2", data := ["1", "2", "3", "4"] }],
        Event.notifyChange], none) := by
  obtain ⟨hc1, hd1⟩ := h 1 (by norm_num) (by norm_num)
  obtain ⟨hc2, hd2⟩ := h 2 (by norm_num) (by norm_num)
  obtain ⟨hc3, hd3⟩ := h 3 (by norm_num) (by norm_num)
  obtain ⟨hc4, hd4⟩ := h 4 (by norm_num) (by norm_num)
  simp [set_splice_and_video, splice_enum_eq, run_splice_cases, case_payload,
    hc1, hd1, hc2, hd2, hc3, hd3, hc4, hd4]

/-- C2 witness: the all-200 run realizes the amended sequence. -/
theorem C2_witness :
    set_splice_and_video (fun _ => 200) (fun _ => 200) =
      ([Event.cmdRequest 1 "splice" "1,1,1,2,2,1,",
        Event.spliceRequest 1
          [{ x := JPrim.str "2", y := JPrim.str "2", data := ["1", "-1", "-1", "-1"] }],
        Event.cmdRequest 2 "splice" "2,1,2,2,2,1,",
        Event.spliceRequest 2
          [{ x := JPrim.str "2", y := JPrim.str "2", data := ["1", "2", "-1", "-1"] }],
        Event.cmdRequest 3 "splice" "3,1,3,2,2,1,",
        Event.spliceRequest 3
          [{ x := JPrim.str "2", y := JPrim.str "2", data := ["1", "2", "3", "-1"] }],
        Event.cmdRequest 4 "splice" "4,1,4,2,2,1,",
        Event.spliceRequest 4
          [{ x := JPrim.str "2", y := JPrim.str "2", data := ["1", "2", "3", "4"] }],
        Event.notifyChange], none) := by
  exact C2_splice_preset_sequence (fun _ => 200) (fun _ => 200)
    (fun i h1 h2 => ⟨rfl, rfl⟩)

/-- C3: if the command call of case `j` returns a non-200 status (all
earlier cases having succeeded), the whole sequence fails with a
`CommandError` naming case `j`, nothing runs after that call (the event
list stops at it) and no change notification fires; when all four cases
succeed, the change notification fires exactly once, as the last event. -/
theorem C3_splice_preset_error_handling (cmdStatus dataStatus : Nat → Nat) :
    (∀ j, 1 ≤ j → j ≤ 4 →
      (∀ i, 1 ≤ i → i < j → cmdStatus i = 200 ∧ dataStatus i = 200) →
      cmdStatus j ≠ 200 →
      (set_splice_and_video cmdStatus dataStatus).2 =
        some (ApiError.commandError
          ("Splice CMD failed (case " ++ toString j ++ "): HTTP " ++
            toString (cmdStatus j))) ∧
      (set_splice_and_video cmdStatus dataStatus).1.length = 2 * (j - 1) + 1 ∧
      Event.notifyChange ∉ (set_splice_and_video cmdStatus dataStatus).1) ∧
    ((∀ i, 1 ≤ i → i ≤ 4 → cmdStatus i = 200 ∧ dataStatus i = 200) →
      (set_splice_and_video cmdStatus dataStatus).1.count Event.notifyChange = 1 ∧
      (set_splice_and_video cmdStatus dataStatus).1.getLast? = some Event.notifyChange ∧
      (set_splice_and_video cmdStatus dataStatus).2 = none) := by
  constructor
  · intro j hj1 hj4 hprev hfail
    interval_cases j
    · refine ⟨?_, ?_, ?_⟩ <;>
        simp [set_splice_and_video, splice_enum_eq, run_splice_cases, case_payload, hfail]
    · obtain ⟨hc1, hd1⟩ := hprev 1 (by norm_num) (by norm_num)
      refine ⟨?_, ?_, ?_⟩ <;>
        simp [set_splice_and_video, splice_enum_eq, run_splice_cases, case_payload,
          hc1, hd1, hfail]
    · obtain ⟨hc1, hd1⟩ := hprev 1 (by norm_num) (by norm_num)
      obtain ⟨hc2, hd2⟩ := hprev 2 (by norm_num) (by norm_num)
      refine ⟨?_, ?_, ?_⟩ <;>
        simp [set_splice_and_video, splice_enum_eq, run_splice_cases, case_payload,
          hc1, hd1, hc2, hd2, hfail]
    · obtain ⟨hc1, hd1⟩ := hprev 1 (by norm_num) (by norm_num)
      obtain ⟨hc2, hd2⟩ := hprev 2 (by norm_num) (by norm_num)
      obtain ⟨hc3, hd3⟩ := hprev 3 (by norm_num) (by norm_num)
      refine ⟨?_, ?_, ?_⟩ <;>
        simp [set_splice_and_video, splice_enum_eq, run_splice_cases, case_payload,
          hc1, hd1, hc2, hd2, hc3, hd3, hfail]
  · intro h
    obtain ⟨hc1, hd1⟩ := h 1 (by norm_num) (by norm_num)
    obtain ⟨hc2, hd2⟩ := h 2 (by norm_num) (by norm_num)
    obtain ⟨hc3, hd3⟩ := h 3 (by norm_num) (by norm_num)
    obtain ⟨hc4, hd4⟩ := h 4 (by norm_num) (by norm_num)
    refine ⟨?_, ?_, ?_⟩ <;>
      simp [set_splice_and_video, splice_enum_eq, run_splice_cases, case_payload,
        hc1, hd1, hc2, hd2, hc3, hd3, hc4, hd4, List.count_cons, List.getLast?]

/-- C3 witness: case 3's command call answers HTTP 500 after cases 1 and 2
succeed; the run fails with the case-3 command error, stops after 5 events
and never notifies. -/
theorem C3_witness :
    (set_splice_and_video (fun i => if i = 3 then 500 else 200) (fun _ => 200)).2 =
      some (ApiError.commandError
        ("Splice CMD failed (case " ++ toString 3 ++ "): HTTP " ++
          toString ((fun i => if i = 3 then 500 else 200) 3))) ∧
    (set_splice_and_video (fun i => if i = 3 then 500 else 200) (fun _ => 200)).1.length =
      2 * (3 - 1) + 1 ∧
    Event.notifyChange ∉
      (set_splice_and_video (fun i => if i = 3 then 500 else 200) (fun _ => 200)).1 := by
  exact (C3_splice_preset_error_handling (fun i => if i = 3 then 500 else 200)
      (fun _ => 200)).1 3 (by norm_num) (by norm_num)
    (by intro i h1 h2; interval_cases i <;> exact ⟨rfl, rfl⟩) (by decide)

theorem run_poller_data (trace : List (Except ApiError StatusDict)) :
    ∀ st, (run_poller st trace).data =
      match last_success trace with
      | some d => some d
      | none => st.data := by
  induction trace with
  | nil => intro st; rfl
  | cons o rest ih =>
    intro st
    cases o with
    | ok d =>
      rw [run_poller, last_success, ih]
      cases last_success rest <;> rfl
    | error e =>
      rw [run_poller, last_success, ih]
      cases last_success rest <;> rfl

theorem run_poller_flag (trace : List (Except ApiError StatusDict)) :
    ∀ st, (st.consecutive_failures ≠ 0 → st.last_update_success = false) →
      ((run_poller st trace).consecutive_failures ≠ 0 →
        (run_poller st trace).last_update_success = false) := by
  induction trace with
  | nil => intro st h; exact h
  | cons o rest ih =>
    intro st h
    cases o with
    | ok d => exact ih _ (fun h0 => absurd rfl h0)
    | error e => exact ih _ (fun _ => rfl)

/-- C7: for the poller state machine, every failed refresh increments the
consecutive-failure counter and retains the cached snapshot, every
successful refresh replaces the snapshot and resets the counter to 0, and
in every reachable state with 3 or more consecutive failures,
`is_connected` is false while the snapshot — and hence `get_all_outputs` —
is still the last successful refresh's data. -/
theorem C7_poller (trace : List (Except ApiError StatusDict)) :
    (∀ st e, (refresh_step st (Except.error e)).consecutive_failures =
        st.consecutive_failures + 1 ∧
      (refresh_step st (Except.error e)).data = st.data) ∧
    (∀ st d, refresh_step st (Except.ok d) =
      { data := some d, last_update_success := true, consecutive_failures := 0 }) ∧
    (3 ≤ (run_poller initial_poller_state trace).consecutive_failures →
      is_connected (run_poller initial_poller_state trace) = false ∧
      (run_poller initial_poller_state trace).data = last_success trace ∧
      get_all_outputs (run_poller initial_poller_state trace) =
        (match last_success trace with
         | some d => d.matrix
         | none => [])) := by
  refine ⟨fun st e => ⟨rfl, rfl⟩, fun st d => rfl, ?_⟩
  intro h3
  have hdata : (run_poller initial_poller_state trace).data = last_success trace := by
    rw [run_poller_data trace initial_poller_state]
    cases last_success trace <;> rfl
  have hflag : (run_poller initial_poller_state trace).last_update_success = false := by
    refine run_poller_flag trace initial_poller_state (fun h0 => absurd rfl h0) ?_
    omega
  refine ⟨?_, hdata, ?_⟩
  · simp [is_connected, hflag]
  · rw [get_all_outputs, hdata]
    cases last_success trace <;> rfl

/-- C7 witness: one successful refresh with a one-output snapshot followed
by three failed refreshes: the poller reports disconnected yet still serves
the snapshot's data. -/
theorem C7_witness :
    is_connected (run_poller initial_poller_state
      [Except.ok { matrix := [("output_1", { input := some 1, raw_value := 0 })],
                   total_outputs := 1 },
       Except.error (ApiError.connectionError "timeout"),
       Except.error (ApiError.connectionError "timeout"),
       Except.error (ApiError.connectionError "timeout")]) = false ∧
    get_all_outputs (run_poller initial_poller_state
      [Except.ok { matrix := [("output_1", { input := some 1, raw_value := 0 })],
                   total_outputs := 1 },
       Except.error (ApiError.connectionError "timeout"),
       Except.error (ApiError.connectionError "timeout"),
       Except.error (ApiError.connectionError "timeout")]) =
      [("output_1", { input := some 1, raw_value := 0 })] := by
  have h := (C7_poller
    [Except.ok { matrix := [("output_1", { input := some 1, raw_value := 0 })],
                 total_outputs := 1 },
     Except.error (ApiError.connectionError "timeout"),
     Except.error (ApiError.connectionError "timeout"),
     Except.error (ApiError.connectionError "timeout")]).2.2 (by decide)
  exact ⟨h.1, h.2.2.trans (by decide)⟩

/-- C10: the poller's read accessors are total: with no snapshot,
`get_output_state` returns the empty mapping (modelled `none`),
`get_all_outputs` the empty mapping and `get_connected_outputs` the empty
list; and for any output number whose key is absent from the snapshot,
`get_output_state` returns the empty mapping. -/
theorem C10_accessors (st : PollerState) (n : Nat) :
    (st.data = none →
      get_output_state st n = none ∧ get_all_outputs st = [] ∧
      get_connected_outputs st = []) ∧
    (∀ d, st.data = some d →
      d.matrix.lookup ("output_" ++ toString n) = none →
      get_output_state st n = none) := by
  constructor
  · intro h
    refine ⟨?_, ?_, ?_⟩ <;> simp [get_output_state, get_all_outputs, get_connected_outputs, h]
  · intro d hd hl
    simp [get_output_state, hd, hl]

/-- C10 witness: with no snapshot all three accessors return empties; with
a one-output snapshot, output 2 (absent) reads as the empty mapping. -/
theorem C10_witness :
    (get_output_state
        { data := none, last_update_success := true, consecutive_failures := 0 } 5 = none ∧
      get_all_outputs
        { data := none, last_update_success := true, consecutive_failures := 0 } = [] ∧
      get_connected_outputs
        { data := none, last_update_success := true, consecutive_failures := 0 } = []) ∧
    get_output_state
      { data := some { matrix := [("output_1", { input := some 1, raw_value := 0 })],
                       total_outputs := 1 },
        last_update_success := true, consecutive_failures := 0 } 2 = none := by
  refine ⟨(C10_accessors
      { data := none, last_update_success := true, consecutive_failures := 0 } 5).1 rfl,
    (C10_accessors
      { data := some { matrix := [("output_1", { input := some 1, raw_value := 0 })],
                       total_outputs := 1 },
        last_update_success := true, consecutive_failures := 0 } 2).2
      { matrix := [("output_1", { input := some 1, raw_value := 0 })], total_outputs := 1 }
      rfl (by decide)⟩
